import Mathlib

/-!
Verification development for the MusicJoo song-identification pipeline.

The Python sources (utils.py, providers.py, audio_processing.py,
search_engine.py) are shallowly embedded below.  External HTTP services
and process invocations are modelled by an explicit `World` record of
oracles; Python exceptions are modelled by the `Except Err` monad;
Python `None` becomes `Option`.  Machine behaviour that the sources rely
on (requests.raise_for_status, str.strip, str.split, "or" truthiness,
stable sorting) is embedded explicitly.
-/

deriving instance DecidableEq for Except

namespace MusicJoo

/-- Python whitespace test used by str.strip (common whitespace chars). -/
def isPySpace (c : Char) : Bool :=
  c == ' ' || c == '\t' || c == '\n' || c == '\r' || c == '\x0b' || c == '\x0c'

/-- Python str.strip: remove leading and trailing whitespace. -/
def pyStrip (s : String) : String :=
  String.mk (((s.toList.dropWhile isPySpace).reverse.dropWhile isPySpace).reverse)

/-- Python truthy "a or b" on two strings: empty string is falsy. -/
def orS (a b : String) : String := if a = "" then b else a

/-- Python truthy "a or b" where a is an optional string and b a string. -/
def pyOrStr (a : Option String) (b : String) : String :=
  match a with
  | none => b
  | some s => if s = "" then b else s

/-- Python truthy "a or b" on two optional strings (None and "" falsy). -/
def pyOrO (a b : Option String) : Option String :=
  match a with
  | none => b
  | some s => if s = "" then b else a

/-- Python f-string rendering of a value that may be None. -/
def fstr (a : Option String) : String :=
  match a with
  | none => "None"
  | some s => s

/-- Python str slice s[:n] (first n characters). -/
def strTake (s : String) (n : Nat) : String := String.mk (s.toList.take n)

/-- Split a character list at every occurrence of a separator
character (structurally recursive splitter). -/
def splitChAux (sep : Char) : List Char → List Char → List String
  | [], cur => [String.mk cur.reverse]
  | c :: rest, cur =>
    if c = sep then String.mk cur.reverse :: splitChAux sep rest []
    else splitChAux sep rest (c :: cur)

/-- Python s.split(sep) for a one-character separator. -/
def pySplitCh (s : String) (sep : Char) : List String :=
  splitChAux sep s.toList []

/-- Error kinds for modelled Python exceptions. -/
inductive Err where
  | net
  | parse
  | httpStatus (code : Nat)
  | download
  | proc
deriving DecidableEq, Repr

/-- Outcome of one modelled HTTP request: network failure, or a response
with a status code and an optional parseable JSON body (none = body that
makes r.json() raise). -/
inductive HRes (α : Type) where
  | netErr
  | resp (status : Nat) (body : Option α)
deriving DecidableEq

/-- An artist-credit entry: a dict that may carry a "name" key. -/
structure ArtistCredit where
  name : Option String
deriving DecidableEq, Repr

/-- A release entry carrying its MusicBrainz id. -/
structure MBRelease where
  id : String
deriving DecidableEq, Repr

/-- A MusicBrainz recording object (search hit or lookup result). -/
structure MBRec where
  id : Option String
  title : Option String
  artistCredit : List ArtistCredit
  releases : List MBRelease
deriving DecidableEq, Repr

/-- Body of a MusicBrainz recording-search response. -/
structure MBSearchBody where
  recordings : List MBRec
deriving DecidableEq, Repr

/-- One AcoustID match: optional score and associated recordings. -/
structure AcMatch where
  score : Option Rat
  recordings : List MBRec
deriving DecidableEq, Repr

/-- Body of an AcoustID lookup response. -/
structure AcBody where
  status : String
  results : List AcMatch
deriving DecidableEq, Repr

/-- Body of a Spotify token-exchange response. -/
structure SpTokenBody where
  access_token : Option String
deriving DecidableEq, Repr

/-- An album image entry from Spotify. -/
structure SpImage where
  url : Option String
deriving DecidableEq, Repr

/-- A Spotify track item. -/
structure SpItem where
  spotifyUrl : Option String
  previewUrl : Option String
  albumImages : List SpImage
  artists : List ArtistCredit
  name : Option String
deriving DecidableEq, Repr

/-- Body of a Spotify search response (tracks.items). -/
structure SpSearchBody where
  items : List SpItem
deriving DecidableEq, Repr

/-- Body of a lyrics.ovh response. -/
structure LyricsBody where
  lyrics : Option String
deriving DecidableEq, Repr

/-- Oracles for every external effect the pipeline performs: environment
variables, the Chromaprint fingerprint computation, each HTTP endpoint
(keyed by the request data that distinguishes calls), and the
download/transcode process outcomes used by audio normalization. -/
structure World where
  env : String → String
  fingerprint : Option (String × Int)
  mbSearch : String → HRes MBSearchBody
  mbLookup : Option String → HRes MBRec
  coverArt : String → HRes Unit
  acoustid : String → HRes AcBody
  spToken : HRes SpTokenBody
  spSearch : String → HRes SpSearchBody
  lyrics : String → String → HRes LyricsBody
  downloadOk : Bool
  ffmpegUrl1Ok : Bool
  ffmpegUrl2Ok : Bool
  ffmpegFileOk : Bool
  tmpName : String

/-- The final result dict built by the search engine. -/
structure TrackResult where
  title : Option String
  artists : String
  cover_url : Option String
  mbid : Option String
  spotify_link : Option String
  spotify_preview : Option String
  lyrics_excerpt : Option String
deriving DecidableEq, Repr

/-- requests.raise_for_status raises HTTPError exactly for 4xx/5xx. -/
def statusRaises (s : Nat) : Bool := 400 ≤ s && s < 600

/-- providers.mb_search_recordings: GET, raise_for_status, json,
data.get("recordings", []). -/
def mb_search_recordings (w : World) (query ua : String) (limit : Nat) :
    Except Err (List MBRec) :=
  match w.mbSearch query with
  | .netErr => .error .net
  | .resp s b =>
    if statusRaises s then .error (.httpStatus s)
    else
      match b with
      | none => .error .parse
      | some data => .ok data.recordings

/-- providers.mb_lookup_recording: GET by mbid, raise_for_status, json. -/
def mb_lookup_recording (w : World) (mbid : Option String) (ua : String) :
    Except Err MBRec :=
  match w.mbLookup mbid with
  | .netErr => .error .net
  | .resp s b =>
    if statusRaises s then .error (.httpStatus s)
    else
      match b with
      | none => .error .parse
      | some info => .ok info

/-- providers.cover_art_from_release: probe the Cover Art Archive front
image; return the URL only on status 200; every failure (network error
included, caught by the bare except) yields None. -/
def cover_art_from_release (w : World) (release_mbid : String) : Option String :=
  match w.coverArt release_mbid with
  | .netErr => none
  | .resp s _ =>
    if s = 200 then
      some ("https://coverartarchive.org/release/" ++ release_mbid ++ "/front")
    else none

/-- providers.acoustid_lookup: POST, raise_for_status, json; body status
field other than "ok" yields the empty list; otherwise the results. -/
def acoustid_lookup (w : World) (fp : String) (duration : Int) (api_key : String) :
    Except Err (List AcMatch) :=
  match w.acoustid fp with
  | .netErr => .error .net
  | .resp s b =>
    if statusRaises s then .error (.httpStatus s)
    else
      match b with
      | none => .error .parse
      | some js => if js.status ≠ "ok" then .ok [] else .ok js.results

/-- providers.spotify_client_credentials_token: missing credentials or a
non-200 status yield None; a network failure or a bad body raises. -/
def spotify_client_credentials_token (w : World) (client_id client_secret : String) :
    Except Err (Option String) :=
  if client_id = "" ∨ client_secret = "" then .ok none
  else
    match w.spToken with
    | .netErr => .error .net
    | .resp s b =>
      if s ≠ 200 then .ok none
      else
        match b with
        | none => .error .parse
        | some body => .ok body.access_token

/-- providers.spotify_search_track: GET, raise_for_status, json,
data.get("tracks", {}).get("items", []). -/
def spotify_search_track (w : World) (q token : String) (limit : Nat) :
    Except Err (List SpItem) :=
  match w.spSearch q with
  | .netErr => .error .net
  | .resp s b =>
    if statusRaises s then .error (.httpStatus s)
    else
      match b with
      | none => .error .parse
      | some data => .ok data.items

/-- ", ".join(a.get("name", "") for a in credit if a.get("name")). -/
def joinNames (credit : List ArtistCredit) : String :=
  String.intercalate ", "
    (credit.filterMap fun a =>
      match a.name with
      | none => none
      | some n => if n = "" then none else some n)

/-- Info extracted by providers.spotify_track_link_and_preview. -/
structure SpInfo where
  link : Option String
  preview : Option String
  cover : Option String
  artists : String
  title : Option String
deriving DecidableEq, Repr

/-- providers.spotify_track_link_and_preview. -/
def spotify_track_link_and_preview (item : SpItem) : SpInfo :=
  { link := item.spotifyUrl
    preview := item.previewUrl
    cover :=
      match item.albumImages with
      | [] => none
      | img :: _ => img.url
    artists := joinNames item.artists
    title := item.name }

/-- Total length of a list of lines. -/
def sumLen (l : List String) : Nat := (l.map String.length).sum

/-- The accumulation loop of providers.lyrics_best_effort: for each line,
append its stripped form when non-blank, then stop as soon as the
accumulated character count exceeds 500. -/
def excerptLoop : List String → List String → List String
  | [], out => out
  | line :: rest, out =>
    let out2 := if pyStrip line ≠ "" then out ++ [pyStrip line] else out
    if 500 < sumLen out2 then out2 else excerptLoop rest out2

/-- Python str.splitlines modelled on newline characters. -/
def pySplitlines (s : String) : List String := pySplitCh s '\n'

/-- The excerpt-trimming computation of providers.lyrics_best_effort:
txt.strip().splitlines(), the accumulation loop, then "\n".join. -/
def trimExcerpt (txt : String) : String :=
  String.intercalate "\n" (excerptLoop (pySplitlines (pyStrip txt)) [])

/-- providers.lyrics_best_effort: total (the bare except swallows every
failure); empty artist or title, non-200, bad body, or missing/empty
lyrics text all yield None; otherwise the trimmed excerpt. -/
def lyrics_best_effort (w : World) (artist title : String) : Option String :=
  if artist = "" ∨ title = "" then none
  else
    match w.lyrics artist title with
    | .netErr => none
    | .resp s b =>
      if s ≠ 200 then none
      else
        match b with
        | none => none
        | some body =>
          match body.lyrics with
          | none => none
          | some txt => if txt = "" then none else some (trimExcerpt txt)

/-- utils.get_env with default "". -/
def get_env (w : World) (name : String) : String := w.env name

/-- audio_processing.is_url: regex match of https?:// at the start of the
stripped text, case-insensitive (the scheme comparison is done on the
lower-cased character list). -/
def is_url (text : String) : Bool :=
  let t := (pyStrip text).toList.map Char.toLower
  List.isPrefixOf "http://".toList t || List.isPrefixOf "https://".toList t

/-- audio_processing.extract_audio_from_file, threading the set of
existing temporary files.  On ffmpeg success the output WAV
(in_path + ".wav") is created and its path returned; on failure
subprocess.run raises CalledProcessError and no file is added. -/
def extract_audio_from_file (w : World) (in_path : String) (fs : List String) :
    Except Err String × List String :=
  if w.ffmpegFileOk then (.ok (in_path ++ ".wav"), fs ++ [in_path ++ ".wav"])
  else (.error .proc, fs)

/-- audio_processing.extract_audio_from_url, threading temp files.  The
yt-dlp TemporaryDirectory is created and removed inside the call on every
path, so only its net effect appears: a failed download or first
transcode leaves nothing; a successful download with a failed final copy
leaves the mkstemp file; full success leaves the persistent mkstemp WAV
and returns its path. -/
def extract_audio_from_url (w : World) (url : String) (fs : List String) :
    Except Err String × List String :=
  if ¬ w.downloadOk then (.error .download, fs)
  else if ¬ w.ffmpegUrl1Ok then (.error .proc, fs)
  else if ¬ w.ffmpegUrl2Ok then (.error .proc, fs ++ [w.tmpName])
  else (.ok w.tmpName, fs ++ [w.tmpName])

/-- search_engine._chromaprint_fingerprint: every failure is caught and
becomes None; success gives the fingerprint string and duration. -/
def chromaprint_fingerprint (w : World) (wav_path : String) : Option (String × Int) :=
  w.fingerprint

/-- search_engine._spotify_token. -/
def spotify_token (w : World) : Except Err (Option String) :=
  let cid := get_env w "SPOTIFY_CLIENT_ID"
  let sec := get_env w "SPOTIFY_CLIENT_SECRET"
  if cid = "" ∨ sec = "" then .ok none
  else spotify_client_credentials_token w cid sec

/-- search_engine._enrich_spotify_and_cover. -/
def enrich_spotify_and_cover (w : World) (title artists : String)
    (cover_url : Option String) :
    Except Err (Option String × Option String × Option String) :=
  match spotify_token w with
  | .error e => .error e
  | .ok none => .ok (none, none, cover_url)
  | .ok (some token) =>
    match spotify_search_track w (pyStrip (title ++ " " ++ artists)) token 1 with
    | .error e => .error e
    | .ok [] => .ok (none, none, cover_url)
    | .ok (item :: _) =>
      let sp := spotify_track_link_and_preview item
      .ok (sp.link, sp.preview, pyOrO cover_url sp.cover)

/-- artists.split(",")[0].strip() if artists else "". -/
def firstArtistOf (artists : String) : String :=
  if artists = "" then "" else pyStrip ((pySplitCh artists ',').headD "")

/-- The result assembly of search_engine.identify_from_audio_input for a
selected AcoustID recording (lines 74-90): MusicBrainz lookup, cover-art
probe on the first release, Spotify enrichment, best-effort lyrics. -/
def audioResult (w : World) (rec : MBRec) (ua : String) : Except Err TrackResult :=
  match mb_lookup_recording w rec.id ua with
  | .error e => .error e
  | .ok info =>
    let title := info.title
    let artists := joinNames info.artistCredit
    let cover_url :=
      match info.releases with
      | [] => none
      | rel :: _ => cover_art_from_release w rel.id
    match enrich_spotify_and_cover w (fstr title) artists cover_url with
    | .error e => .error e
    | .ok (sp_link, sp_prev, cover2) =>
      let lyrics := lyrics_best_effort w (firstArtistOf artists) (pyOrStr title "")
      .ok { title := title, artists := artists, cover_url := cover2,
            mbid := rec.id, spotify_link := sp_link, spotify_preview := sp_prev,
            lyrics_excerpt := lyrics }

/-- Key function sorted() is called with: x.get("score", 0). -/
def scoreKey (m : AcMatch) : Rat := m.score.getD 0

/-- One insertion step of a stable descending sort by score: the inserted
element precedes every element whose key it ties or beats (it originally
came before them), preserving Python sorted() stability. -/
def insertDesc (x : AcMatch) : List AcMatch → List AcMatch
  | [] => [x]
  | y :: ys => if scoreKey y ≤ scoreKey x then x :: y :: ys else y :: insertDesc x ys

/-- sorted(matches, key=score, reverse=True): a stable descending sort,
which the stable insertion sort computes. -/
def sortDesc (l : List AcMatch) : List AcMatch := l.foldr insertDesc []

/-- The fingerprint half of search_engine.identify_from_audio_input
(lines 62-93), after normalization produced a WAV path.  The source
binds acoustid_key once; get_env is pure, so reading it at each use is
the same value. -/
def identifyCore (w : World) (wav_path ua : String) :
    Except Err (Option TrackResult) :=
  if get_env w "ACOUSTID_API_KEY" = "" then .ok none
  else
    match chromaprint_fingerprint w wav_path with
    | none => .ok none
    | some (fp, dur) =>
      match acoustid_lookup w fp dur (get_env w "ACOUSTID_API_KEY") with
      | .error e => .error e
      | .ok ms =>
        match (sortDesc ms).head? with
        | none => .ok none
        | some top =>
          match top.recordings with
          | [] => .ok none
          | rec :: _ => (audioResult w rec ua).map some

/-- The normalization step of identify_from_audio_input (lines 57-60). -/
def extractStep (w : World) (input : String) (fs : List String) :
    Except Err String × List String :=
  if is_url input then extract_audio_from_url w input fs
  else extract_audio_from_file w input fs

/-- search_engine.identify_from_audio_input, threading the temp-file set:
normalize, then the fingerprint pipeline.  No temp file is ever removed
by the function (the source contains no removal). -/
def identify_from_audio_input (w : World) (input ua : String) (fs : List String) :
    Except Err (Option TrackResult) × List String :=
  match extractStep w input fs with
  | (.error e, fs1) => (.error e, fs1)
  | (.ok wav_path, fs1) => (identifyCore w wav_path ua, fs1)

/-- The Spotify-fallback result of search_engine.identify_from_text
(lines 104-121): map the first hit, with a null mbid. -/
def textResultSpotify (w : World) (query : String) (item : SpItem) : TrackResult :=
  let sp := spotify_track_link_and_preview item
  let artists := orS sp.artists ""
  let title := pyOrStr sp.title query
  let lyrics := lyrics_best_effort w (firstArtistOf artists) title
  { title := some title, artists := artists, cover_url := sp.cover, mbid := none,
    spotify_link := sp.link, spotify_preview := sp.preview, lyrics_excerpt := lyrics }

/-- The MusicBrainz-pick result of search_engine.identify_from_text
(lines 124-142). -/
def textResultMB (w : World) (pick : MBRec) (ua : String) : Except Err TrackResult :=
  let mbid := pick.id
  let title := pick.title
  let artists := orS (joinNames pick.artistCredit) "Unknown"
  let cover_url :=
    match pick.releases with
    | [] => none
    | rel :: _ => cover_art_from_release w rel.id
  match enrich_spotify_and_cover w (pyOrStr title "") (orS artists "") cover_url with
  | .error e => .error e
  | .ok (sp_link, sp_prev, cover2) =>
    let lyrics := lyrics_best_effort w (firstArtistOf artists) (pyOrStr title "")
    .ok { title := title, artists := artists, cover_url := cover2, mbid := mbid,
          spotify_link := sp_link, spotify_preview := sp_prev,
          lyrics_excerpt := lyrics }

/-- search_engine.identify_from_text. -/
def identify_from_text (w : World) (query ua : String) :
    Except Err (Option TrackResult) :=
  match mb_search_recordings w query ua 5 with
  | .error e => .error e
  | .ok [] =>
    match spotify_token w with
    | .error e => .error e
    | .ok none => .ok none
    | .ok (some token) =>
      match spotify_search_track w query token 1 with
      | .error e => .error e
      | .ok [] => .ok none
      | .ok (item :: _) => .ok (some (textResultSpotify w query item))
  | .ok (pick :: _) => (textResultMB w pick ua).map some

/-- A Python exception value as utils.human_exc consumes it: its type
name and its str() message. -/
structure PyExc where
  kind : String
  msg : String
deriving DecidableEq, Repr

/-- utils.human_exc: the exception type name, a separator, and the
message truncated to its first 300 characters. -/
def human_exc (e : PyExc) : String := e.kind ++ ": " ++ strTake e.msg 300

/-- The per-line contribution of the lyrics excerpt loop: the stripped
line when non-blank, nothing otherwise. -/
def stripNB (l : String) : Option String :=
  if pyStrip l = "" then none else some (pyStrip l)

/-- Spec-side statement for claim C7 over an arbitrary match list: the
head of the stable descending sort is an element of the list whose score
is maximal and which every earlier element beats strictly, and the
pipeline continues with exactly that element and its first recording. -/
def FirstMaxSelects (ms : List AcMatch) : Prop :=
  ∃ i m, (sortDesc ms).head? = some m ∧ ms.get? i = some m ∧
    (∀ x ∈ ms, scoreKey x ≤ scoreKey m) ∧
    (∀ j, j < i → ∃ y, ms.get? j = some y ∧ scoreKey y < scoreKey m) ∧
    (∀ (w : World) (wav ua fp : String) (dur : Int),
      get_env w "ACOUSTID_API_KEY" ≠ "" →
      chromaprint_fingerprint w wav = some (fp, dur) →
      acoustid_lookup w fp dur (get_env w "ACOUSTID_API_KEY") = .ok ms →
      identifyCore w wav ua =
        match m.recordings with
        | [] => .ok none
        | rec :: _ => (audioResult w rec ua).map some)

/-- A world in which every external service is unreachable and both
process steps succeed. -/
def wBase : World :=
  { env := fun _ => ""
    fingerprint := none
    mbSearch := fun _ => .netErr
    mbLookup := fun _ => .netErr
    coverArt := fun _ => .netErr
    acoustid := fun _ => .netErr
    spToken := .netErr
    spSearch := fun _ => .netErr
    lyrics := fun _ _ => .netErr
    downloadOk := true
    ffmpegUrl1Ok := true
    ffmpegUrl2Ok := true
    ffmpegFileOk := true
    tmpName := "/tmp/tmpabc.wav" }

/-- A recording as AcoustID returns it attached to a match. -/
def recA : MBRec := { id := some "rid", title := none, artistCredit := [], releases := [] }

/-- A world in which the audio path resolves a candidate and Spotify
credentials are configured, but the Spotify search endpoint answers 500. -/
def c1W : World :=
  { wBase with
    env := fun n =>
      if n = "ACOUSTID_API_KEY" then "k"
      else if n = "SPOTIFY_CLIENT_ID" then "cid"
      else if n = "SPOTIFY_CLIENT_SECRET" then "sec"
      else ""
    fingerprint := some ("FP", 100)
    acoustid := fun _ => .resp 200 (some { status := "ok", results := [{ score := some 1, recordings := [recA] }] })
    mbLookup := fun _ => .resp 200 (some { id := some "rid", title := some "Title", artistCredit := [{ name := some "Artist" }], releases := [] })
    spToken := .resp 200 (some { access_token := some "tok" })
    spSearch := fun _ => .resp 500 none }

/-- A world in which the audio path resolves a candidate whose
MusicBrainz lookup carries neither a title nor any artist credit. -/
def c4W : World :=
  { wBase with
    env := fun n => if n = "ACOUSTID_API_KEY" then "k" else ""
    fingerprint := some ("FP", 100)
    acoustid := fun _ => .resp 200 (some { status := "ok", results := [{ score := some 1, recordings := [recA] }] })
    mbLookup := fun _ => .resp 200 (some { id := none, title := none, artistCredit := [], releases := [] }) }

/-- The TrackResult the audio path produces in c4W. -/
def c4Res : TrackResult :=
  { title := none, artists := "", cover_url := none, mbid := some "rid",
    spotify_link := none, spotify_preview := none, lyrics_excerpt := none }

/-- A single lyrics line of 501 characters. -/
def longLine : String := String.mk (List.replicate 501 'a')

/-- A world whose lyrics service answers 200 with a 501-character line. -/
def c2W : World :=
  { wBase with lyrics := fun _ _ => .resp 200 (some { lyrics := some longLine }) }

/-- A world whose AcoustID endpoint answers with status 201 and a
well-formed ok body. -/
def c9W : World :=
  { wBase with acoustid := fun _ => .resp 201 (some { status := "ok", results := [{ score := some 1, recordings := [] }] }) }

/-- A world whose AcoustID endpoint answers 503. -/
def c9hW : World :=
  { wBase with acoustid := fun _ => .resp 503 none }

/-- A MusicBrainz text-search hit with a title but no artist credit. -/
def pickNoArtist : MBRec :=
  { id := some "mb1", title := some "Song", artistCredit := [], releases := [] }

/-- A world whose MusicBrainz text search returns pickNoArtist and in
which no other service is configured or reachable. -/
def wText : World :=
  { wBase with mbSearch := fun _ => .resp 200 (some { recordings := [pickNoArtist] }) }

/-- The TrackResult identify_from_text produces in wText. -/
def wTextRes : TrackResult :=
  { title := some "Song", artists := "Unknown", cover_url := none, mbid := some "mb1",
    spotify_link := none, spotify_preview := none, lyrics_excerpt := none }

/-- A world whose MusicBrainz text search answers 200 with zero
recordings, with no Spotify credentials configured. -/
def wEmpty : World :=
  { wBase with mbSearch := fun _ => .resp 200 (some { recordings := [] }) }

/-- A concrete match list with a score tie on the maximum. -/
def msTie : List AcMatch :=
  [ { score := some 1, recordings := [] },
    { score := some 2, recordings := [recA] },
    { score := some 2, recordings := [] } ]

/-- A world in which the candidate resolves with a release whose
cover-art probe answers 404, no Spotify credentials are configured, and
the lyrics service is unreachable. -/
def wCov : World :=
  { wBase with
    env := fun n => if n = "ACOUSTID_API_KEY" then "k" else ""
    fingerprint := some ("FP", 100)
    acoustid := fun _ => .resp 200 (some { status := "ok", results := [{ score := some 1, recordings := [recA] }] })
    mbLookup := fun _ => .resp 200 (some { id := some "rid", title := some "T", artistCredit := [{ name := some "A" }], releases := [{ id := "rel1" }] })
    coverArt := fun _ => .resp 404 none }

/-- The TrackResult the audio path produces in wCov: cover-art failure
leaves the cover absent while title, artists and the rest are intact. -/
def covRes : TrackResult :=
  { title := some "T", artists := "A", cover_url := none, mbid := some "rid",
    spotify_link := none, spotify_preview := none, lyrics_excerpt := none }

theorem strTake_length_le (s : String) (n : Nat) : (strTake s n).length ≤ n := by
  show (String.mk (s.toList.take n)).length ≤ n
  have : (String.mk (s.toList.take n)).length = (s.toList.take n).length := rfl
  rw [this, List.length_take]
  exact Nat.min_le_left _ _

theorem strTake_prefix (s : String) (n : Nat) :
    s = strTake s n ++ String.mk (s.toList.drop n) := by
  cases s with
  | mk data =>
    show String.mk data = String.mk (data.take n) ++ String.mk (data.drop n)
    have happ : String.mk (data.take n) ++ String.mk (data.drop n) =
        String.mk (data.take n ++ data.drop n) := rfl
    rw [happ, List.take_append_drop]

/-- C8: utils.human_exc returns the error kind followed by the message
truncated to its first 300 characters, hence a string of length bounded
by the kind length plus 302. -/
theorem human_exc_short (e : PyExc) :
    human_exc e = e.kind ++ ": " ++ strTake e.msg 300 ∧
    (strTake e.msg 300).length ≤ 300 ∧
    (∃ rest, e.msg = strTake e.msg 300 ++ rest) ∧
    (human_exc e).length ≤ e.kind.length + 302 := by
  refine ⟨rfl, strTake_length_le e.msg 300, ⟨String.mk (e.msg.toList.drop 300), strTake_prefix e.msg 300⟩, ?_⟩
  show (e.kind ++ ": " ++ strTake e.msg 300).length ≤ e.kind.length + 302
  rw [String.length_append, String.length_append]
  have h1 : (": " : String).length = 2 := rfl
  have h2 := strTake_length_le e.msg 300
  omega

/-- C9 (amended): the AcoustID lookup treats a response whose body-level
status is not "ok" as a soft no-match (empty list) when the HTTP layer
did not raise; requests-level raise_for_status raises exactly for
statuses 400-599, and any other non-error status is processed like
200. -/
theorem acoustid_soft_vs_hard (w : World) (fp : String) (dur : Int) (key : String) :
    (∀ b : AcBody, w.acoustid fp = .resp 200 (some b) → b.status ≠ "ok" →
      acoustid_lookup w fp dur key = .ok []) ∧
    (∀ (s : Nat) (ob : Option AcBody), w.acoustid fp = .resp s ob →
      400 ≤ s → s < 600 →
      acoustid_lookup w fp dur key = .error (.httpStatus s)) ∧
    (∀ (s : Nat) (b : AcBody), w.acoustid fp = .resp s (some b) →
      s < 400 → b.status = "ok" →
      acoustid_lookup w fp dur key = .ok b.results) := by
  refine ⟨?_, ?_, ?_⟩
  · intro b hresp hstat
    simp [acoustid_lookup, hresp, statusRaises, hstat]
  · intro s ob hresp h4 h6
    have hr : statusRaises s = true := by
      simp [statusRaises]; omega
    simp [acoustid_lookup, hresp, hr]
  · intro s b hresp hlt hok
    have hr : statusRaises s = false := by
      simp [statusRaises]; omega
    simp [acoustid_lookup, hresp, hr, hok]

/-- C9 counterexample: a 201 response does not raise; with an ok body it
is processed exactly like a 200 response, refuting the reading that any
non-200 HTTP response raises an error. -/
theorem acoustid_non200_no_raise :
    acoustid_lookup c9W "f" 10 "k" = .ok [{ score := some 1, recordings := [] }] := by
  decide

/-- C9 witness: the theorem applied in a concrete world with a 503
answer produces the raised error. -/
theorem acoustid_soft_vs_hard_witness :
    acoustid_lookup c9hW "f" 10 "k" = .error (.httpStatus 503) :=
  (acoustid_soft_vs_hard c9hW "f" 10 "k").2.1 503 none rfl (by decide) (by decide)

theorem sumLen_dropLast_le (l : List String) : sumLen l.dropLast ≤ sumLen l := by
  induction l with
  | nil => exact Nat.le_refl _
  | cons x xs ih =>
    cases xs with
    | nil => simp [sumLen]
    | cons y ys =>
      have : (x :: y :: ys).dropLast = x :: (y :: ys).dropLast := rfl
      rw [this]
      simp only [sumLen, List.map_cons, List.sum_cons] at ih ⊢
      omega

theorem excerptLoop_take (ls : List String) :
    ∀ out, ∃ n, excerptLoop ls out = out ++ (ls.take n).filterMap stripNB := by
  induction ls with
  | nil => intro out; exact ⟨0, by simp [excerptLoop]⟩
  | cons line rest ih =>
    intro out
    by_cases hb : pyStrip line = ""
    · by_cases hs : 500 < sumLen out
      · refine ⟨0, ?_⟩
        simp [excerptLoop, hb, hs]
      · obtain ⟨n, hn⟩ := ih out
        refine ⟨n + 1, ?_⟩
        simp [excerptLoop, hb, hs, hn, List.take_succ_cons, stripNB]
    · by_cases hs : 500 < sumLen (out ++ [pyStrip line])
      · refine ⟨1, ?_⟩
        simp [excerptLoop, hb, hs, List.take_succ_cons, stripNB]
      · obtain ⟨n, hn⟩ := ih (out ++ [pyStrip line])
        refine ⟨n + 1, ?_⟩
        simp [excerptLoop, hb, hs, hn, List.take_succ_cons, stripNB]

theorem excerptLoop_dropLast_le (ls : List String) :
    ∀ out, sumLen out ≤ 500 → sumLen (excerptLoop ls out).dropLast ≤ 500 := by
  induction ls with
  | nil =>
    intro out h
    exact Nat.le_trans (sumLen_dropLast_le out) h
  | cons line rest ih =>
    intro out h
    by_cases hb : pyStrip line = ""
    · have hs : ¬ 500 < sumLen out := Nat.not_lt.mpr h
      simp only [excerptLoop]
      simp only [hb, ne_eq, not_true_eq_false, if_false, hs]
      exact ih out h
    · by_cases hs : 500 < sumLen (out ++ [pyStrip line])
      · simp only [excerptLoop]
        simp only [hb, ne_eq, not_false_eq_true, if_true, hs, List.dropLast_concat]
        exact h
      · simp only [excerptLoop]
        simp only [hb, ne_eq, not_false_eq_true, if_true, hs, if_false]
        exact ih _ (Nat.not_lt.mp hs)

/-- C2 (amended): the lyrics excerpt consists only of whole, stripped,
non-blank source lines of a prefix of the lyrics, in source order, and
the cumulative length of every line except possibly the last is at most
500; the total excerpt length may exceed 500 because the loop appends a
line before testing the bound. -/
theorem trimExcerpt_whole_lines (txt : String) :
    ∃ n,
      excerptLoop (pySplitlines (pyStrip txt)) [] =
        ((pySplitlines (pyStrip txt)).take n).filterMap stripNB ∧
      sumLen (excerptLoop (pySplitlines (pyStrip txt)) []).dropLast ≤ 500 ∧
      (∀ l ∈ excerptLoop (pySplitlines (pyStrip txt)) [],
        l ≠ "" ∧ ∃ src ∈ pySplitlines (pyStrip txt), l = pyStrip src) ∧
      trimExcerpt txt =
        String.intercalate "\n" (excerptLoop (pySplitlines (pyStrip txt)) []) := by
  obtain ⟨n, hn⟩ := excerptLoop_take (pySplitlines (pyStrip txt)) []
  refine ⟨n, by simpa using hn, excerptLoop_dropLast_le _ [] (by simp [sumLen]), ?_, rfl⟩
  intro l hl
  rw [hn] at hl
  simp only [List.nil_append, List.mem_filterMap] at hl
  obtain ⟨src, hsrc, hval⟩ := hl
  have hsrc2 : src ∈ pySplitlines (pyStrip txt) := List.take_subset n _ hsrc
  unfold stripNB at hval
  by_cases hb : pyStrip src = ""
  · rw [if_pos hb] at hval
    exact absurd hval (by simp)
  · rw [if_neg hb] at hval
    have hv : pyStrip src = l := Option.some.inj hval
    subst hv
    exact ⟨hb, src, hsrc2, rfl⟩

set_option maxRecDepth 100000

/-- C2 counterexample: a 200 lyrics response consisting of one 501
character line yields an excerpt of length 501, refuting the bound of at
most 500 characters. -/
theorem lyrics_excerpt_over_500 :
    lyrics_best_effort c2W "A" "T" = some longLine ∧ 500 < longLine.length := by
  constructor
  · decide
  · decide

/-- C5: when normalization succeeds, an unset fingerprint API key or a
failed fingerprint computation makes the audio path return absent
without raising, and no text-search fallback is consulted: the outcome
is unchanged for any behaviour of the text-search and Spotify
endpoints. -/
theorem audio_no_fingerprint_absent (w : World) (input ua wav_path : String)
    (fs fs1 : List String)
    (hext : extractStep w input fs = (.ok wav_path, fs1))
    (hno : get_env w "ACOUSTID_API_KEY" = "" ∨ chromaprint_fingerprint w wav_path = none) :
    identify_from_audio_input w input ua fs = (.ok none, fs1) ∧
    ∀ f g h, identify_from_audio_input
      { w with mbSearch := f, spSearch := g, spToken := h } input ua fs = (.ok none, fs1) := by
  have hcore : ∀ w2 : World, w2.env = w.env → w2.fingerprint = w.fingerprint →
      identifyCore w2 wav_path ua = .ok none := by
    intro w2 henv hfp
    rcases hno with hkey | hfpn
    · have : get_env w2 "ACOUSTID_API_KEY" = "" := by
        simp [get_env, henv] at hkey ⊢
        exact hkey
      simp [identifyCore, this]
    · by_cases hkey2 : get_env w2 "ACOUSTID_API_KEY" = ""
      · simp [identifyCore, hkey2]
      · have : chromaprint_fingerprint w2 wav_path = none := by
          simp [chromaprint_fingerprint, hfp] at hfpn ⊢
          exact hfpn
        simp [identifyCore, hkey2, this]
  constructor
  · simp only [identify_from_audio_input, hext]
    rw [hcore w rfl rfl]
  · intro f g h
    have hext2 : extractStep { w with mbSearch := f, spSearch := g, spToken := h } input fs =
        (.ok wav_path, fs1) := hext
    simp only [identify_from_audio_input, hext2]
    rw [hcore { w with mbSearch := f, spSearch := g, spToken := h } rfl rfl]

/-- C5 witness: a plain local file with no AcoustID key configured. -/
theorem audio_no_fingerprint_absent_witness :
    identify_from_audio_input wBase "clip.mp3" "ua" [] = (.ok none, ["clip.mp3.wav"]) :=
  (audio_no_fingerprint_absent wBase "clip.mp3" "ua" "clip.mp3.wav" [] ["clip.mp3.wav"]
    (by decide) (Or.inl rfl)).1

/-- C6: identify_from_text queries MusicBrainz first; with a MusicBrainz
candidate the result is assembled from that candidate and carries its
catalog id; only with zero MusicBrainz candidates is the Spotify
fallback consulted, mapping the first hit to a result with a null mbid;
and when both stages yield zero candidates (or the fallback is
unavailable) the call returns absent. -/
theorem text_search_order (w : World) (q ua : String) :
    (mb_search_recordings w q ua 5 = .ok [] → spotify_token w = .ok none →
      identify_from_text w q ua = .ok none) ∧
    (∀ t, mb_search_recordings w q ua 5 = .ok [] → spotify_token w = .ok (some t) →
      spotify_search_track w q t 1 = .ok [] →
      identify_from_text w q ua = .ok none) ∧
    (∀ t item rest, mb_search_recordings w q ua 5 = .ok [] →
      spotify_token w = .ok (some t) →
      spotify_search_track w q t 1 = .ok (item :: rest) →
      identify_from_text w q ua = .ok (some (textResultSpotify w q item)) ∧
      (textResultSpotify w q item).mbid = none) ∧
    (∀ pick rest, mb_search_recordings w q ua 5 = .ok (pick :: rest) →
      identify_from_text w q ua = (textResultMB w pick ua).map Option.some ∧
      ∀ r, textResultMB w pick ua = .ok r → r.mbid = pick.id) := by
  refine ⟨?_, ?_, ?_, ?_⟩
  · intro hmb htok
    simp [identify_from_text, hmb, htok]
  · intro t hmb htok hsp
    simp [identify_from_text, hmb, htok, hsp]
  · intro t item rest hmb htok hsp
    refine ⟨by simp [identify_from_text, hmb, htok, hsp], rfl⟩
  · intro pick rest hmb
    refine ⟨by simp [identify_from_text, hmb], ?_⟩
    intro r hr
    simp only [textResultMB] at hr
    rcases henr : enrich_spotify_and_cover w (pyOrStr pick.title "")
        (orS (orS (joinNames pick.artistCredit) "Unknown") "")
        (match pick.releases with
          | [] => none
          | rel :: _ => cover_art_from_release w rel.id) with he | ⟨l, p, c⟩
    · rw [henr] at hr; exact absurd hr (by simp)
    · rw [henr] at hr
      have := Except.ok.inj hr
      rw [← this]

/-- C6 witness: zero MusicBrainz candidates and no Spotify credentials
give the absent result. -/
theorem text_search_order_witness :
    identify_from_text wEmpty "some song" "ua" = .ok none :=
  (text_search_order wEmpty "some song" "ua").1 (by decide) (by decide)

/-- C10: a result produced by the MusicBrainz path of identify_from_text
always carries a non-empty artist string, defaulting to the literal
"Unknown" exactly when the picked recording has no usable artist names;
the audio-path assembly applies no such default and returns an empty
artist string for a recording without artist names. -/
theorem unknown_artist_default (w : World) (ua : String) :
    (∀ q pick rest r, mb_search_recordings w q ua 5 = .ok (pick :: rest) →
      identify_from_text w q ua = .ok (some r) →
      r.artists ≠ "" ∧ (joinNames pick.artistCredit = "" → r.artists = "Unknown")) ∧
    (∀ rec info l p c, mb_lookup_recording w rec.id ua = .ok info →
      joinNames info.artistCredit = "" →
      enrich_spotify_and_cover w (fstr info.title) (joinNames info.artistCredit)
        (match info.releases with
          | [] => none
          | rel :: _ => cover_art_from_release w rel.id) = .ok (l, p, c) →
      ∃ r, audioResult w rec ua = .ok r ∧ r.artists = "") := by
  constructor
  · intro q pick rest r hmb hres
    simp only [identify_from_text, hmb] at hres
    simp only [textResultMB] at hres
    rcases henr : enrich_spotify_and_cover w (pyOrStr pick.title "")
        (orS (orS (joinNames pick.artistCredit) "Unknown") "")
        (match pick.releases with
          | [] => none
          | rel :: _ => cover_art_from_release w rel.id) with e | ⟨l, p, c⟩
    · rw [henr] at hres
      exact absurd hres (by simp [Except.map])
    · rw [henr] at hres
      simp only [Except.map] at hres
      have hr := Option.some.inj (Except.ok.inj hres)
      rw [← hr]
      show orS (joinNames pick.artistCredit) "Unknown" ≠ "" ∧ _
      constructor
      · unfold orS
        by_cases hj : joinNames pick.artistCredit = "" <;> simp [hj]
      · intro hj
        show orS (joinNames pick.artistCredit) "Unknown" = "Unknown"
        simp [orS, hj]
  · intro rec info l p c hmbl hja henr
    refine ⟨{ title := info.title, artists := joinNames info.artistCredit,
              cover_url := c, mbid := rec.id, spotify_link := l, spotify_preview := p,
              lyrics_excerpt := lyrics_best_effort w
                (firstArtistOf (joinNames info.artistCredit)) (pyOrStr info.title "") },
            ?_, hja⟩
    simp only [audioResult, hmbl, henr]

/-- C10 witness: the text path defaults to "Unknown" for a recording
without artist credit, while the audio path leaves the artist string
empty for the same kind of recording. -/
theorem unknown_artist_default_witness :
    (wTextRes.artists ≠ "" ∧
      (joinNames pickNoArtist.artistCredit = "" → wTextRes.artists = "Unknown")) ∧
    (∃ r, audioResult c4W recA "ua" = .ok r ∧ r.artists = "") :=
  ⟨(unknown_artist_default wText "ua").1 "q" pickNoArtist [] wTextRes (by decide) (by decide),
   (unknown_artist_default c4W "ua").2 recA
     { id := none, title := none, artistCredit := [], releases := [] }
     none none none (by decide) (by decide) (by decide)⟩

/-- C4 (amended): every TrackResult returned by identify_from_text for a
non-empty query has a non-empty title or a non-empty artist string; the
audio path carries no such guarantee (see the counterexample, where a
result with empty title and empty artists is returned). -/
theorem text_result_nonempty (w : World) (q ua : String) (r : TrackResult)
    (hq : q ≠ "") (h : identify_from_text w q ua = .ok (some r)) :
    (∃ s, r.title = some s ∧ s ≠ "") ∨ r.artists ≠ "" := by
  simp only [identify_from_text] at h
  rcases hmb : mb_search_recordings w q ua 5 with e | recs <;> simp only [hmb] at h
  · exact absurd h (by simp)
  · cases recs with
    | nil =>
      rcases htok : spotify_token w with e | ot <;> simp only [htok] at h
      · exact absurd h (by simp)
      · cases ot with
        | none => exact absurd h (by simp)
        | some t =>
          rcases hsp : spotify_search_track w q t 1 with e | items <;>
            simp only [hsp] at h
          · exact absurd h (by simp)
          · cases items with
            | nil => exact absurd h (by simp)
            | cons item rest =>
              have hr : r = textResultSpotify w q item :=
                (Option.some.inj (Except.ok.inj h)).symm
              subst hr
              left
              refine ⟨pyOrStr (spotify_track_link_and_preview item).title q, rfl, ?_⟩
              unfold pyOrStr
              rcases (spotify_track_link_and_preview item).title with _ | s
              · exact hq
              · by_cases hs : s = ""
                · simp only [hs, if_pos rfl]
                  exact hq
                · simp only [if_neg hs]
                  exact hs
    | cons pick rest =>
      right
      simp only [textResultMB] at h
      rcases henr : enrich_spotify_and_cover w (pyOrStr pick.title "")
          (orS (orS (joinNames pick.artistCredit) "Unknown") "")
          (match pick.releases with
            | [] => none
            | rel :: _ => cover_art_from_release w rel.id) with e | ⟨l, p, c⟩ <;>
        simp only [henr, Except.map] at h
      · exact absurd h (by simp)
      · have hr := Option.some.inj (Except.ok.inj h)
        rw [← hr]
        show orS (joinNames pick.artistCredit) "Unknown" ≠ ""
        unfold orS
        by_cases hj : joinNames pick.artistCredit = "" <;> simp [hj]

/-- C4 counterexample: on the audio path a recording whose MusicBrainz
lookup has neither title nor artist credit produces a returned
TrackResult whose title and artist string are both empty, instead of the
absent result. -/
theorem audio_result_both_empty :
    identify_from_audio_input c4W "clip.mp3" "ua" [] =
      (.ok (some c4Res), ["clip.mp3.wav"]) ∧
    c4Res.title = none ∧ c4Res.artists = "" := by
  refine ⟨by decide, rfl, rfl⟩

/-- C4 witness: the amended theorem applied to a concrete text query. -/
theorem text_result_nonempty_witness :
    (∃ s, wTextRes.title = some s ∧ s ≠ "") ∨ wTextRes.artists ≠ "" :=
  text_result_nonempty wText "q" "ua" wTextRes (by decide) (by decide)

/-- C3 is violated by the code: the identification call removes no
temporary file on any exit path.  A successful local-file run leaves the
normalized WAV behind, a successful URL run leaves the persistent
mkstemp WAV behind, and a URL run whose final transcode fails leaves the
mkstemp WAV behind on the hard-failure path as well. -/
theorem temp_files_leak :
    identify_from_audio_input wBase "voice_note.ogg" "ua" [] =
      (.ok none, ["voice_note.ogg.wav"]) ∧
    identify_from_audio_input wBase "https://youtu.be/x" "ua" [] =
      (.ok none, ["/tmp/tmpabc.wav"]) ∧
    identify_from_audio_input { wBase with ffmpegUrl2Ok := false }
      "https://youtu.be/x" "ua" [] = (.error .proc, ["/tmp/tmpabc.wav"]) := by
  refine ⟨by decide, by decide, by decide⟩

theorem head?_insertDesc (x : AcMatch) (s : List AcMatch) :
    (insertDesc x s).head? = some (match s with
      | [] => x
      | y :: _ => if scoreKey y ≤ scoreKey x then x else y) := by
  cases s with
  | nil => rfl
  | cons y ys =>
    by_cases h : scoreKey y ≤ scoreKey x
    · simp [insertDesc, h]
    · simp [insertDesc, h]

theorem sortDesc_cons (x : AcMatch) (l : List AcMatch) :
    sortDesc (x :: l) = insertDesc x (sortDesc l) := rfl

theorem sortDesc_head_first_max (ms : List AcMatch) (hne : ms ≠ []) :
    ∃ i m, (sortDesc ms).head? = some m ∧ ms.get? i = some m ∧
      (∀ x ∈ ms, scoreKey x ≤ scoreKey m) ∧
      (∀ j, j < i → ∃ y, ms.get? j = some y ∧ scoreKey y < scoreKey m) := by
  induction ms with
  | nil => exact absurd rfl hne
  | cons x xs ih =>
    cases xs with
    | nil =>
      refine ⟨0, x, rfl, rfl, ?_, ?_⟩
      · intro z hz
        have : z = x := by simpa using hz
        rw [this]
      · intro j hj
        exact absurd hj (Nat.not_lt_zero j)
    | cons y ys =>
      obtain ⟨i, m, h1, h2, h3, h4⟩ := ih (by simp)
      obtain ⟨tail, htail⟩ : ∃ t, sortDesc (y :: ys) = m :: t := by
        cases hs : sortDesc (y :: ys) with
        | nil => rw [hs] at h1; exact absurd h1 (by simp)
        | cons a t =>
          rw [hs] at h1
          have : a = m := by simpa using h1
          exact ⟨t, by rw [this]⟩
      by_cases hle : scoreKey m ≤ scoreKey x
      · refine ⟨0, x, ?_, rfl, ?_, ?_⟩
        · rw [sortDesc_cons, htail, head?_insertDesc]
          simp [hle]
        · intro z hz
          rcases List.mem_cons.mp hz with h | h
          · rw [h]
          · exact le_trans (h3 z h) hle
        · intro j hj
          exact absurd hj (Nat.not_lt_zero j)
      · push_neg at hle
        refine ⟨i + 1, m, ?_, ?_, ?_, ?_⟩
        · rw [sortDesc_cons, htail, head?_insertDesc]
          simp [not_le.mpr hle]
        · simpa using h2
        · intro z hz
          rcases List.mem_cons.mp hz with h | h
          · rw [h]; exact le_of_lt hle
          · exact h3 z h
        · intro j hj
          cases j with
          | zero => exact ⟨x, rfl, hle⟩
          | succ j2 =>
            obtain ⟨yy, hy1, hy2⟩ := h4 j2 (Nat.lt_of_succ_lt_succ hj)
            exact ⟨yy, by simpa using hy1, hy2⟩

/-- C7: for a non-empty match list the pipeline selects the match whose
score (the score field, defaulting to 0) is maximal, every strictly
earlier match having a strictly smaller score (stable tie-break by
service order), and continues with exactly that match and its first
associated recording. -/
theorem top_match_selection (ms : List AcMatch) (hne : ms ≠ []) :
    FirstMaxSelects ms := by
  obtain ⟨i, m, h1, h2, h3, h4⟩ := sortDesc_head_first_max ms hne
  refine ⟨i, m, h1, h2, h3, h4, ?_⟩
  intro w wav ua fp dur hkey hfp hlk
  simp only [identifyCore, if_neg hkey, hfp, hlk, h1]

/-- C7 witness: a concrete list with a tie on the maximal score selects
the earlier of the two tied matches, and the pipeline continues with its
first recording. -/
theorem top_match_selection_witness : msTie ≠ [] ∧ FirstMaxSelects msTie :=
  ⟨by decide, top_match_selection msTie (by decide)⟩

/-- C1 (amended): cover-art probe failure and lyrics-fetch failure are
each isolated (the step degrades to an absent field, the other
enrichment fields are the values their own steps compute, and the call
still returns a TrackResult), and the commercial step degrades to absent
link/preview fields when credentials are missing or the token exchange
answers non-200; the commercial search link/preview never depend on the
incoming cover value.  An exception inside the commercial token exchange
or catalog search, however, propagates (see the counterexample). -/
theorem enrichment_isolation (w : World) (rec : MBRec) (ua : String) :
    (∀ t a cov l p c, enrich_spotify_and_cover w t a cov = .ok (l, p, c) →
      ∃ c2, enrich_spotify_and_cover w t a none = .ok (l, p, c2)) ∧
    (∀ info rel rels l p c,
      mb_lookup_recording w rec.id ua = .ok info →
      info.releases = rel :: rels →
      (w.coverArt rel.id = .netErr ∨ ∀ s b, w.coverArt rel.id = .resp s b → s ≠ 200) →
      enrich_spotify_and_cover w (fstr info.title) (joinNames info.artistCredit) none =
        .ok (l, p, c) →
      audioResult w rec ua = .ok
        { title := info.title, artists := joinNames info.artistCredit,
          cover_url := c, mbid := rec.id, spotify_link := l, spotify_preview := p,
          lyrics_excerpt := lyrics_best_effort w
            (firstArtistOf (joinNames info.artistCredit)) (pyOrStr info.title "") }) ∧
    (∀ artist title,
      (∀ b, w.lyrics artist title ≠ .resp 200 b) →
      lyrics_best_effort w artist title = none) ∧
    (∀ info l p c,
      mb_lookup_recording w rec.id ua = .ok info →
      enrich_spotify_and_cover w (fstr info.title) (joinNames info.artistCredit)
        (match info.releases with
          | [] => none
          | rel :: _ => cover_art_from_release w rel.id) = .ok (l, p, c) →
      ∃ r, audioResult w rec ua = .ok r ∧ r.cover_url = c ∧ r.spotify_link = l ∧
        r.spotify_preview = p ∧ r.title = info.title ∧
        r.artists = joinNames info.artistCredit) ∧
    (∀ info,
      mb_lookup_recording w rec.id ua = .ok info →
      spotify_token w = .ok none →
      audioResult w rec ua = .ok
        { title := info.title, artists := joinNames info.artistCredit,
          cover_url := (match info.releases with
            | [] => none
            | rel :: _ => cover_art_from_release w rel.id),
          mbid := rec.id, spotify_link := none, spotify_preview := none,
          lyrics_excerpt := lyrics_best_effort w
            (firstArtistOf (joinNames info.artistCredit)) (pyOrStr info.title "") }) ∧
    (get_env w "SPOTIFY_CLIENT_ID" = "" ∨ get_env w "SPOTIFY_CLIENT_SECRET" = "" →
      spotify_token w = .ok none) ∧
    (∀ s b, w.spToken = .resp s b → s ≠ 200 → spotify_token w = .ok none) := by
  refine ⟨?_, ?_, ?_, ?_, ?_, ?_, ?_⟩
  · intro t a cov l p c h
    simp only [enrich_spotify_and_cover] at h ⊢
    rcases htok : spotify_token w with e | ot <;> simp only [htok] at h ⊢
    · exact absurd h (by simp)
    · cases ot with
      | none =>
        simp only [Except.ok.injEq, Prod.mk.injEq] at h
        obtain ⟨h1, h2, h3⟩ := h
        subst h1
        subst h2
        exact ⟨none, rfl⟩
      | some token =>
        rcases hsp : spotify_search_track w (pyStrip (t ++ " " ++ a)) token 1 with
          e | items <;> simp only [hsp] at h ⊢
        · exact absurd h (by simp)
        · cases items with
          | nil =>
            simp only [Except.ok.injEq, Prod.mk.injEq] at h
            obtain ⟨h1, h2, h3⟩ := h
            subst h1
            subst h2
            exact ⟨none, rfl⟩
          | cons item rest =>
            simp only [Except.ok.injEq, Prod.mk.injEq] at h
            obtain ⟨h1, h2, h3⟩ := h
            subst h1
            subst h2
            exact ⟨pyOrO none (spotify_track_link_and_preview item).cover, rfl⟩
  · intro info rel rels l p c hmbl hrel hcf henr
    have hcov : cover_art_from_release w rel.id = none := by
      unfold cover_art_from_release
      rcases hc : w.coverArt rel.id with _ | ⟨s, b⟩
      · rfl
      · rcases hcf with h | h
        · rw [hc] at h
          exact absurd h (by simp)
        · have hs := h s b hc
          simp [hs]
    simp only [audioResult, hmbl, hrel, hcov, henr]
  · intro artist title hfail
    unfold lyrics_best_effort
    by_cases hat : artist = "" ∨ title = ""
    · simp [hat]
    · simp only [if_neg hat]
      rcases hl : w.lyrics artist title with _ | ⟨s, b⟩
      · rfl
      · by_cases hs : s = 200
        · subst hs
          exact absurd hl (hfail b)
        · simp [hs]
  · intro info l p c hmbl henr
    refine ⟨{ title := info.title, artists := joinNames info.artistCredit,
              cover_url := c, mbid := rec.id, spotify_link := l, spotify_preview := p,
              lyrics_excerpt := lyrics_best_effort w
                (firstArtistOf (joinNames info.artistCredit)) (pyOrStr info.title "") },
            ?_, rfl, rfl, rfl, rfl, rfl⟩
    simp only [audioResult, hmbl, henr]
  · intro info hmbl htok
    have henr : ∀ cov, enrich_spotify_and_cover w (fstr info.title)
        (joinNames info.artistCredit) cov = .ok (none, none, cov) := by
      intro cov
      simp [enrich_spotify_and_cover, htok]
    simp only [audioResult, hmbl, henr]
  · intro hcred
    simp only [spotify_token]
    rw [if_pos hcred]
  · intro s b htokr hs
    simp only [spotify_token]
    by_cases hcred : get_env w "SPOTIFY_CLIENT_ID" = "" ∨ get_env w "SPOTIFY_CLIENT_SECRET" = ""
    · rw [if_pos hcred]
    · rw [if_neg hcred]
      simp only [spotify_client_credentials_token]
      rw [if_neg hcred, htokr]
      simp [hs]

/-- C1 counterexample: with a resolved candidate and configured Spotify
credentials, a 500 answer from the Spotify search endpoint propagates
out of the identification call as an error instead of a TrackResult. -/
theorem spotify_failure_aborts_identification :
    identify_from_audio_input c1W "song.mp3" "ua" [] =
      (.error (.httpStatus 500), ["song.mp3.wav"]) := by
  decide

/-- C1 witness: the amended theorem applied in concrete worlds — the
commercial soft failure keeps cover and lyrics intact, a failed
cover-art probe keeps the remaining fields intact, and an unreachable
lyrics service degrades to an absent excerpt. -/
theorem enrichment_isolation_witness :
    audioResult c4W recA "ua" = .ok c4Res ∧
    audioResult wCov recA "ua" = .ok covRes ∧
    lyrics_best_effort wBase "A" "T" = none := by
  refine ⟨?_, ?_, ?_⟩
  · exact (enrichment_isolation c4W recA "ua").2.2.2.2.1
      { id := none, title := none, artistCredit := [], releases := [] }
      (by decide) (by decide)
  · exact (enrichment_isolation wCov recA "ua").2.1
      { id := some "rid", title := some "T", artistCredit := [{ name := some "A" }],
        releases := [{ id := "rel1" }] }
      { id := "rel1" } [] none none none (by decide) (by decide)
      (Or.inr (by intro s b h; injection h with hs hb; omega)) (by decide)
  · exact (enrichment_isolation wBase recA "ua").2.2.1 "A" "T"
      (by intro b h; cases h)

end MusicJoo
